import Mathlib

/-
Verification of the upload-orchestration core of the modelo_humo_fuego
repository (img_etiquetas.py, subir.py, subir2.py, upload.py).

The scripts are shallowly embedded: the filesystem is a finite map from
directory paths to entry listings, the remote roboflow client is an oracle
(success / raised-exception-message), and each script's top-to-bottom
control flow is a Lean function over those parameters.
-/

/-! ## Python string helpers: `Path.stem`, `Path.suffix`, `str.lower`, truthiness -/

/-- `str.lower()` restricted to what the scripts compare (ASCII extensions). -/
def lowerStr (s : String) : String :=
  ⟨s.data.map Char.toLower⟩

/-- Split a reversed character list at its first dot: `rdot r = some (a, b)`
means `r = a ++ '.' :: b` with `a` dot-free.  Applied to the reversal of a
filename, `a` is the reversed extension body and `b` the reversed stem. -/
def rdot : List Char → Option (List Char × List Char)
  | [] => none
  | c :: cs => if c = '.' then some ([], cs) else (rdot cs).map (fun p => (c :: p.1, p.2))

/-- `pathlib` name splitting: `pySplit n = (stem, suffix)` with Python's rules —
the suffix is the part from the last dot on, but only when that dot is neither
the first nor the last character of the name; otherwise the suffix is empty
and the stem is the whole name. -/
def pySplit (n : String) : String × String :=
  match rdot n.data.reverse with
  | some (a, b) =>
      if a ≠ [] ∧ b ≠ [] then (⟨b.reverse⟩, ⟨'.' :: a.reverse⟩) else (n, "")
  | none => (n, "")

/-- `Path(n).stem`. -/
def pyStem (n : String) : String := (pySplit n).1

/-- `Path(n).suffix`. -/
def pySuffix (n : String) : String := (pySplit n).2

/-- Python truthiness of an `os.getenv` result: `None` and `""` are falsy. -/
def truthy : Option String → Bool
  | none => false
  | some s => s != ""

/-- Python `a or b` on two `os.getenv` results. -/
def pyOr (a b : Option String) : Option String :=
  if truthy a then a else b

/-! ## Filesystem model

A directory either exists (and has a finite listing of named entries, each a
regular file or not) or does not.  `Path.exists()` on `dir / name` holds iff
`dir` exists and its listing contains an entry called `name`, of either kind;
`Path.is_file()` additionally requires the entry to be a regular file. -/

/-- One directory entry: a name plus whether it is a regular file. -/
structure Entry where
  name : String
  isFile : Bool
deriving DecidableEq

/-- The filesystem: an association list from existing directory paths to
their listings (in iteration order).  A directory absent from the list does
not exist. -/
structure FS where
  dirs : List (String × List Entry)
deriving DecidableEq

/-- `(Path(dir) / name).exists()`: some entry (file or directory) named
`name` is in `dir`'s listing. -/
def pathExistsIn (fs : FS) (dir name : String) : Bool :=
  match fs.dirs.lookup dir with
  | none => false
  | some es => es.any (fun e => e.name == name)

/-- The listing of a directory, `[]` when the directory does not exist. -/
def dirListing (fs : FS) (dir : String) : List Entry :=
  (fs.dirs.lookup dir).getD []

/-! ## Keyword arguments sent to `project.upload` -/

/-- A Python value passed as a keyword argument. -/
inductive Val where
  | vstr (s : String)
  | vint (n : Int)
  | vlist (l : List String)
deriving DecidableEq

/-- The keys of a kwargs dict, in insertion order. -/
def keysOf (kw : List (String × Val)) : List String :=
  kw.map Prod.fst

/-- The remote client's `upload` as seen by the batch scripts: `none` means
the call returned normally, `some msg` that it raised an exception rendering
as `msg`. -/
def UploadO : Type := List (String × Val) → Option String

/-! ## img_etiquetas.py -/

/-- `EXTS = {".jpg", ".jpeg", ".png", ".bmp", ".webp"}`. -/
def EXTS : List String := [".jpg", ".jpeg", ".png", ".bmp", ".webp"]

/-- The discovery filter of img_etiquetas.py line 30:
`img_path.is_file() and img_path.suffix.lower() in EXTS`. -/
def isAssetImg (e : Entry) : Bool :=
  e.isFile && decide (lowerStr (pySuffix e.name) ∈ EXTS)

/-- Lines 32–35: the kwargs dict for one image — `image_path`, `split`,
`num_retry_uploads=3`, and `annotation_path` appended iff
`(lbl_dir / (img_path.stem + ".txt")).exists()`. -/
def imgKwargs (fs : FS) (split imgDir lblDir name : String) : List (String × Val) :=
  let base : List (String × Val) :=
    [("image_path", Val.vstr (imgDir ++ "/" ++ name)),
     ("split", Val.vstr split),
     ("num_retry_uploads", Val.vint 3)]
  if pathExistsIn fs lblDir (pyStem name ++ ".txt") then
    base ++ [("annotation_path", Val.vstr (lblDir ++ "/" ++ (pyStem name ++ ".txt")))]
  else base

/-- One observable event of the img_etiquetas.py loop: a missing-directory
warning, a split banner, or a per-asset success/failure line (each asset
event records the kwargs actually sent). -/
inductive Ev where
  | missing (imgDir split : String)
  | header (split : String)
  | okEv (kw : List (String × Val)) (name : String) (withLabel : Bool)
  | errEv (kw : List (String × Val)) (name msg : String)
deriving DecidableEq

/-- Lines 29–41: the inner loop over `img_dir.iterdir()`.  Entries failing
the discovery filter are skipped; for the rest the upload is attempted inside
`try/except`, printing a success or failure line and always continuing. -/
def runEntriesImg (u : UploadO) (fs : FS) (split imgDir lblDir : String) :
    List Entry → List Ev
  | [] => []
  | e :: rest =>
    let tail := runEntriesImg u fs split imgDir lblDir rest
    if isAssetImg e then
      let kw := imgKwargs fs split imgDir lblDir e.name
      match u kw with
      | none => Ev.okEv kw e.name (pathExistsIn fs lblDir (pyStem e.name ++ ".txt")) :: tail
      | some m => Ev.errEv kw e.name m :: tail
    else tail

/-- Lines 22–28: one split — warn and skip when the image directory does not
exist, else print the banner and run the inner loop over its listing. -/
def runSplitImg (u : UploadO) (fs : FS) (t : String × String × String) : List Ev :=
  match fs.dirs.lookup t.2.1 with
  | none => [Ev.missing t.2.1 t.1]
  | some es => Ev.header t.1 :: runEntriesImg u fs t.1 t.2.1 t.2.2 es

/-- The `SPLITS` dict of img_etiquetas.py: split name, image dir, label dir. -/
def SPLITS : List (String × String × String) :=
  [("train", "data/train/images", "data/train/labels"),
   ("valid", "data/val/images", "data/val/labels"),
   ("test", "data/test/images", "data/test/labels")]

/-- The whole batch loop of img_etiquetas.py, as its event stream. -/
def runImg (u : UploadO) (fs : FS) : List Ev :=
  (SPLITS.map (runSplitImg u fs)).flatten

/-- Is an event a per-asset success outcome? -/
def isOkEv : Ev → Bool
  | Ev.okEv _ _ _ => true
  | _ => false

/-- Is an event a per-asset failure outcome? -/
def isErrEv : Ev → Bool
  | Ev.errEv _ _ _ => true
  | _ => false

/-- The kwargs of every `project.upload` call made, in call order. -/
def callsImg : List Ev → List (List (String × Val))
  | [] => []
  | Ev.okEv kw _ _ :: rest => kw :: callsImg rest
  | Ev.errEv kw _ _ :: rest => kw :: callsImg rest
  | _ :: rest => callsImg rest

/-- The exact line printed for an event (the script's f-strings). -/
def renderEv : Ev → String
  | Ev.missing d s => "⚠️ No existe " ++ d ++ " (split " ++ s ++ ")"
  | Ev.header s => "\n=== Subiendo " ++ s ++ " con anotaciones YOLO (si existen) ==="
  | Ev.okEv _ n wl => "✅ " ++ n ++ "  " ++ (if wl then "(+ label)" else "(solo imagen)")
  | Ev.errEv _ n m => "❌ " ++ n ++ ": " ++ m

/-- Everything img_etiquetas.py prints after its loop starts, in order. -/
def traceImg (u : UploadO) (fs : FS) : List String :=
  (runImg u fs).map renderEv

/-- `folder_path.glob("*.jpg")`: names ending in `.jpg` (case-sensitive).
`pathlib.Path.glob`, unlike the `glob` module, also matches dot-initial
names such as `.hidden.jpg` and `.jpg`, and it does not check `is_file`, so
matching directories are yielded too. -/
def globJpg (n : String) : Bool :=
  List.isSuffixOf (".jpg").data n.data

/-- subir.py lines 78–82: the arguments of its `project.upload` call. -/
def subirKwargs (folder name split : String) : List (String × Val) :=
  [("image_path", Val.vstr (folder ++ "/" ++ name)),
   ("split", Val.vstr split),
   ("num_retry_uploads", Val.vint 3)]

/-- One observable event of the subir.py loop. -/
inductive SEv where
  | smissing (folder : String)
  | sheader (folder split : String)
  | sok (kw : List (String × Val)) (name : String)
  | serr (kw : List (String × Val)) (name msg : String)
deriving DecidableEq

/-- subir.py lines 76–85: the inner loop over `folder_path.glob("*.jpg")`,
each upload in `try/except`, always continuing. -/
def runEntriesSubir (u : UploadO) (split folder : String) : List Entry → List SEv
  | [] => []
  | e :: rest =>
    let tail := runEntriesSubir u split folder rest
    if globJpg e.name then
      let kw := subirKwargs folder e.name split
      match u kw with
      | none => SEv.sok kw e.name :: tail
      | some m => SEv.serr kw e.name m :: tail
    else tail

/-- subir.py lines 69–75: one split — warn and skip when the folder does not
exist, else print the banner and run the inner loop. -/
def runSplitSubir (u : UploadO) (fs : FS) (t : String × String) : List SEv :=
  match fs.dirs.lookup t.2 with
  | none => [SEv.smissing t.2]
  | some es => SEv.sheader t.2 t.1 :: runEntriesSubir u t.1 t.2 es

/-- The `splits` dict of subir.py: split name, folder. -/
def subirSplits : List (String × String) :=
  [("train", "data/train/images"),
   ("valid", "data/val/images"),
   ("test", "data/test/images")]

/-- The whole batch loop of subir.py, as its event stream. -/
def runSubir (u : UploadO) (fs : FS) : List SEv :=
  (subirSplits.map (runSplitSubir u fs)).flatten

/-- Is an event a per-asset success outcome? -/
def isSOkEv : SEv → Bool
  | SEv.sok _ _ => true
  | _ => false

/-- Is an event a per-asset failure outcome? -/
def isSErrEv : SEv → Bool
  | SEv.serr _ _ _ => true
  | _ => false

/-- The kwargs of every `project.upload` call subir.py makes, in order. -/
def callsSubir : List SEv → List (List (String × Val))
  | [] => []
  | SEv.sok kw _ :: rest => kw :: callsSubir rest
  | SEv.serr kw _ _ :: rest => kw :: callsSubir rest
  | _ :: rest => callsSubir rest

/-- The exact line printed for a subir.py event (its f-strings). -/
def renderSEv : SEv → String
  | SEv.smissing f => "⚠️ No existe la carpeta: " ++ f
  | SEv.sheader f s =>
      "\n=== Subiendo imágenes desde " ++ f ++ " al split \x27" ++ s ++ "\x27 ==="
  | SEv.sok _ n => "✅ Subida: " ++ n
  | SEv.serr _ n m => "❌ Error con " ++ n ++ ": " ++ m

/-- Everything subir.py prints after its loop starts, in order. -/
def traceSubir (u : UploadO) (fs : FS) : List String :=
  (runSubir u fs).map renderSEv

/-- Whether each remote setup call (`Roboflow(...)`, `.workspace(...)`,
`.project(...)`) returns normally. -/
structure Remote where
  initOk : Bool
  workspaceOk : Bool
  projectOk : Bool
deriving DecidableEq

/-- How a batch script's run ends: the explicit credential error raised at
the top, an uncaught exception from remote setup, or a completed loop with
its event stream. -/
inductive ScriptResult (α : Type) where
  | configError (msg : String)
  | setupError
  | completed (events : List α)
deriving DecidableEq

/-- img_etiquetas.py, top to bottom: credential check (lines 7–9), client /
workspace / project setup (lines 11–13), then the loop. -/
def imgEtiquetasMain (env : List (String × String)) (r : Remote) (fs : FS)
    (u : UploadO) : ScriptResult Ev :=
  let apiKey := pyOr (env.lookup "ROBOFLOW_API_KEY") (env.lookup "roboflow_api_key")
  if !truthy apiKey then ScriptResult.configError "No se encontró ROBOFLOW_API_KEY en el .env"
  else if !r.initOk then ScriptResult.setupError
  else if !r.workspaceOk then ScriptResult.setupError
  else if !r.projectOk then ScriptResult.setupError
  else ScriptResult.completed (runImg u fs)

/-- subir.py, top to bottom: credential check (lines 10–12), setup (lines
15–17), then the loop. -/
def subirMain (env : List (String × String)) (r : Remote) (fs : FS)
    (u : UploadO) : ScriptResult SEv :=
  let apiKey := pyOr (env.lookup "ROBOFLOW_API_KEY") (env.lookup "roboflow_api_key")
  if !truthy apiKey then
    ScriptResult.configError "No se encontró la API Key. Define ROBOFLOW_API_KEY en tu archivo .env"
  else if !r.initOk then ScriptResult.setupError
  else if !r.workspaceOk then ScriptResult.setupError
  else if !r.projectOk then ScriptResult.setupError
  else ScriptResult.completed (runSubir u fs)

/-! ## subir2.py (single-asset CLI) -/

/-- A Python value as handled by subir2.py's response post-processing. -/
inductive PyVal where
  | pdict (es : List (String × PyVal))
  | pstr (s : String)
  | pnone
  | pother

/-- Python truthiness of a `PyVal`: `None`, `""` and `{}` are falsy;
opaque non-dict values are treated as truthy. -/
def pyTruthy : PyVal → Bool
  | PyVal.pdict [] => false
  | PyVal.pdict (_ :: _) => true
  | PyVal.pstr s => s != ""
  | PyVal.pnone => false
  | PyVal.pother => true

/-- `d.get(k, default)` on a dict's entries. -/
def pyGetD (es : List (String × PyVal)) (k : String) (dflt : PyVal) : PyVal :=
  (es.lookup k).getD dflt

/-- `v.get(k)`: a one-argument `.get`, raising `AttributeError` when `v` is
not a dict. -/
def pyGetAttr (v : PyVal) (k : String) : Except String PyVal :=
  match v with
  | PyVal.pdict es => Except.ok (pyGetD es k PyVal.pnone)
  | _ => Except.error "AttributeError"

/-- subir2.py lines 177–180: `link = None; if isinstance(resp, dict): link =
resp.get("image", \x7b\x7d).get("link") or resp.get("link")`.  The inner
`.get("link")` raises when `resp["image"]` is present but not a dict; that
exception propagates to the surrounding `try`. -/
def linkOf (resp : PyVal) : Except String PyVal :=
  match resp with
  | PyVal.pdict es =>
      (pyGetAttr (pyGetD es "image" (PyVal.pdict [])) "link").map
        (fun v1 => if pyTruthy v1 then v1 else pyGetD es "link" PyVal.pnone)
  | _ => Except.ok PyVal.pnone

/-- The parsed CLI arguments of subir2.py (after argparse, whose env-variable
defaults for workspace/project are already folded into the fields). -/
structure Args where
  workspace : Option String
  project : Option String
  image : String
  batch_name : Option String
  split : Option String
  tags : Option (List String)
  retries : Int
  sequence_number : Option Int
  sequence_size : Option Int

/-- subir2.py lines 248–258: the `upload_kwargs` dict with `None` values
dropped (`num_retry_uploads` is never `None`: argparse defaults it to 3). -/
def uploadKwargs2 (a : Args) (imagePath : String) : List (String × Val) :=
  ([("image_path", some (Val.vstr imagePath)),
    ("num_retry_uploads", some (Val.vint a.retries)),
    ("batch_name", a.batch_name.map Val.vstr),
    ("split", a.split.map Val.vstr),
    ("tag_names", a.tags.map Val.vlist),
    ("sequence_number", a.sequence_number.map Val.vint),
    ("sequence_size", a.sequence_size.map Val.vint)] :
      List (String × Option Val)).filterMap
    (fun kv => kv.2.map (fun v => (kv.1, v)))

/-- The world subir2.py's `main` runs in: environment, parsed arguments,
path resolution (`expanduser().resolve()`), path predicates, whether each
remote setup call returns normally, and the upload call's result (`ok resp`
or a raised exception). -/
structure W2 where
  env : List (String × String)
  args : Args
  resolve : String → String
  pathExists : String → Bool
  pathIsFile : String → Bool
  initOk : Bool
  workspaceOk : Bool
  projectOk : Bool
  upload : List (String × Val) → Except String PyVal

/-- The resolved image path of a run. -/
def w2img (w : W2) : String := w.resolve w.args.image

/-- The credential subir2.py resolves (`get_api_key`). -/
def w2api (w : W2) : Option String :=
  pyOr (w.env.lookup "ROBOFLOW_API_KEY") (w.env.lookup "roboflow_api_key")

/-- subir2.py `main` (lines 224–306), as the process exit code: 2 for a falsy
credential/workspace/project, 3 when the resolved image path does not exist
or is not a file, 4/5/6 when client init / workspace / project setup raises,
then the upload inside `try`: on a raise exit 7; on a normal return the link
extraction runs inside the same `try`, so if it raises the run also exits 7,
and otherwise exits 0. -/
def subir2Exit (w : W2) : Nat :=
  if !truthy (w2api w) then 2
  else if !truthy w.args.workspace then 2
  else if !truthy w.args.project then 2
  else if !w.pathExists (w2img w) || !w.pathIsFile (w2img w) then 3
  else if !w.initOk then 4
  else if !w.workspaceOk then 5
  else if !w.projectOk then 6
  else
    match w.upload (uploadKwargs2 w.args (w2img w)) with
    | Except.error _ => 7
    | Except.ok resp =>
      match linkOf resp with
      | Except.error _ => 7
      | Except.ok _ => 0

/-! ## RetryingUploader

Modelled from the spec: the retry loop itself is not in this repository — the
batch scripts delegate it to the external roboflow client by passing
`num_retry_uploads=3` (img_etiquetas.py line 33, subir.py line 81) and
subir2.py passes `--retries` through.  Spec §4.2: with retry bound `R ≥ 0`,
attempt up to `R+1` times, stop at the first success, and after `R+1` failed
attempts yield a `failed` outcome carrying the attempt count. -/

/-- The final outcome of one asset's retried upload, with attempts made. -/
inductive RetryOutcome where
  | uploaded (attempts : Nat)
  | failed (attempts : Nat)
deriving DecidableEq

/-- Modelled from the spec: the retry loop with `made` attempts already made
and `fuel` attempts still allowed; `ok k` tells whether attempt number `k`
(1-based) succeeds. -/
def retryGo (ok : Nat → Bool) (made : Nat) : Nat → RetryOutcome
  | 0 => RetryOutcome.failed made
  | f + 1 =>
    if ok (made + 1) then RetryOutcome.uploaded (made + 1)
    else retryGo ok (made + 1) f

/-- Modelled from the spec: RetryingUploader with retry bound `R` — up to
`R+1` attempts, stopping at the first success. -/
def retryUpload (ok : Nat → Bool) (R : Nat) : RetryOutcome :=
  retryGo ok 0 (R + 1)

/-! ## Derived per-asset views and concrete inputs used in the theorems -/

/-- The single event the img_etiquetas.py loop emits for one discovered
asset: its upload's outcome, a function of that asset alone. -/
def evFor (u : UploadO) (fs : FS) (split imgDir lblDir : String) (e : Entry) : Ev :=
  match u (imgKwargs fs split imgDir lblDir e.name) with
  | none => Ev.okEv (imgKwargs fs split imgDir lblDir e.name) e.name
      (pathExistsIn fs lblDir (pyStem e.name ++ ".txt"))
  | some m => Ev.errEv (imgKwargs fs split imgDir lblDir e.name) e.name m

/-- The single event the subir.py loop emits for one discovered entry. -/
def sevFor (u : UploadO) (split folder : String) (e : Entry) : SEv :=
  match u (subirKwargs folder e.name split) with
  | none => SEv.sok (subirKwargs folder e.name split) e.name
  | some m => SEv.serr (subirKwargs folder e.name split) e.name m

/-- The line img_etiquetas.py prints for one discovered asset. -/
def assetLineImg (u : UploadO) (fs : FS) (split imgDir lblDir : String) (e : Entry) : String :=
  renderEv (evFor u fs split imgDir lblDir e)

/-- The line subir.py prints for one discovered entry. -/
def assetLineSubir (u : UploadO) (split folder : String) (e : Entry) : String :=
  renderSEv (sevFor u split folder e)

/-- `Except.ok`-ness as a boolean. -/
def exOk {ε α : Type} : Except ε α → Bool
  | Except.ok _ => true
  | Except.error _ => false

/-- The keys img_etiquetas.py may send: the three fixed ones, plus
`annotation_path` appended when a label was found. -/
def allowedImgKeys (kw : List (String × Val)) : Bool :=
  (keysOf kw == ["image_path", "split", "num_retry_uploads"]) ||
  (keysOf kw == ["image_path", "split", "num_retry_uploads", "annotation_path"])

/-- No batch name, tags, or sequence metadata among the keys. -/
def noBatchMeta (kw : List (String × Val)) : Bool :=
  !((keysOf kw).contains "batch_name") && !((keysOf kw).contains "tag_names") &&
  !((keysOf kw).contains "sequence_number") && !((keysOf kw).contains "sequence_size")

/-- An upload oracle that always returns normally. -/
def uOk : UploadO := fun _ => none

/-- An upload oracle that always raises, rendering as `boom`. -/
def uBoom : UploadO := fun _ => some "boom"

/-- An empty filesystem. -/
def fsEmpty : FS := ⟨[]⟩

/-- A filesystem whose train label directory holds a DIRECTORY named
`a.txt` (and no file): `Path.exists()` still sees it. -/
def fsC1 : FS :=
  ⟨[("data/train/images", [⟨"a.jpg", true⟩]),
    ("data/train/labels", [⟨"a.txt", false⟩])]⟩

/-- A filesystem whose train label directory holds a regular file `a.txt`. -/
def fsC1w : FS := ⟨[("data/train/labels", [⟨"a.txt", true⟩])]⟩

/-- A filesystem where the train image directory is missing but the other
two split directories exist. -/
def fsC4 : FS := ⟨[("data/val/images", [⟨"b.jpg", true⟩]), ("data/test/images", [])]⟩

/-- A filesystem whose train image directory holds the regular file
`x.png` — a recognized image extension, but not `*.jpg`. -/
def fsC8 : FS :=
  ⟨[("data/train/images", [⟨"x.png", true⟩]),
    ("data/val/images", []),
    ("data/test/images", [])]⟩

/-- A filesystem where only the test image directory exists, holding one
image, so the test asset's line is the last thing printed. -/
def fsC9 : FS := ⟨[("data/test/images", [⟨"a.jpg", true⟩])]⟩

/-- Fully supplied CLI arguments for subir2.py. -/
def argsCex : Args :=
  ⟨some "ws", some "pr", "img.jpg", none, none, none, 3, none, none⟩

/-- A subir2.py world where everything up to the upload succeeds and the
upload returns a dict whose `image` value is a string, not a dict. -/
def w2cex : W2 :=
  ⟨[("ROBOFLOW_API_KEY", "k")], argsCex, fun s => s, fun _ => true, fun _ => true,
   true, true, true, fun _ => Except.ok (PyVal.pdict [("image", PyVal.pstr "oops")])⟩

/-- A spec-conforming success attempt predicate: attempt 2 succeeds. -/
def okAt2 : Nat → Bool := fun k => k == 2

/-! ## Helper lemmas -/

/-- Decomposition produced by `rdot`: what it splits really concatenates
back to the input, with the dot restored. -/
theorem rdot_decomp : ∀ (r a b : List Char), rdot r = some (a, b) → r = a ++ '.' :: b := by
  intro r
  induction r with
  | nil => intro a b h; simp [rdot] at h
  | cons c cs ih =>
    intro a b h
    simp only [rdot] at h
    by_cases hc : c = '.'
    · rw [if_pos hc] at h
      simp only [Option.some.injEq, Prod.mk.injEq] at h
      rw [← h.1, ← h.2, hc]
      rfl
    · rw [if_neg hc] at h
      cases hr : rdot cs with
      | none => rw [hr] at h; simp at h
      | some p =>
        rw [hr] at h
        simp only [Option.map_some', Option.some.injEq, Prod.mk.injEq] at h
        have hcs := ih p.1 p.2 (by rw [hr])
        rw [← h.1, ← h.2]
        simp [hcs]

/-- A name with a nonempty Python suffix is its stem followed by its suffix. -/
theorem stem_append_suffix (n : String) (h : pySuffix n ≠ "") :
    pyStem n ++ pySuffix n = n := by
  simp only [pyStem, pySuffix, pySplit] at h ⊢
  cases hr : rdot n.data.reverse with
  | none => simp [hr] at h
  | some p =>
    obtain ⟨a, b⟩ := p
    rw [hr] at h
    dsimp only at h ⊢
    by_cases hab : a ≠ [] ∧ b ≠ []
    · rw [if_pos hab] at h ⊢
      have hd := rdot_decomp n.data.reverse a b hr
      have hdata : n.data = b.reverse ++ '.' :: a.reverse := by
        have := congrArg List.reverse hd
        simpa [List.reverse_append] using this
      show String.mk (b.reverse ++ ('.' :: a.reverse)) = n
      rw [← hdata]
    · rw [if_neg hab] at h
      simp at h

/-- A name with a nonempty Python suffix has a nonempty stem. -/
theorem stem_ne_empty (n : String) (h : pySuffix n ≠ "") : pyStem n ≠ "" := by
  simp only [pyStem, pySuffix, pySplit] at h ⊢
  cases hr : rdot n.data.reverse with
  | none => simp [hr] at h
  | some p =>
    obtain ⟨a, b⟩ := p
    rw [hr] at h
    dsimp only at h ⊢
    by_cases hab : a ≠ [] ∧ b ≠ []
    · rw [if_pos hab] at h ⊢
      intro hcontra
      have hbrev : b.reverse = ([] : List Char) := congrArg String.data hcontra
      exact hab.2 (by simpa using hbrev)
    · rw [if_neg hab] at h
      simp at h

/-- Splitting `s ++ ".txt"` for nonempty `s` gives stem `s`, suffix `.txt`. -/
theorem pySplit_append_txt (s : String) (h : s ≠ "") :
    pySplit (s ++ ".txt") = (s, ".txt") := by
  have hsne : s.data ≠ [] := fun hc => h (congrArg String.mk hc)
  have hdata : (s ++ ".txt").data = s.data ++ ['.', 't', 'x', 't'] := rfl
  unfold pySplit
  rw [hdata]
  have hrev : (s.data ++ ['.', 't', 'x', 't']).reverse =
      't' :: 'x' :: 't' :: '.' :: s.data.reverse := by
    simp [List.reverse_append]
  rw [hrev]
  have hrd : rdot ('t' :: 'x' :: 't' :: '.' :: s.data.reverse) =
      some (['t', 'x', 't'], s.data.reverse) := by
    simp [rdot]
  rw [hrd]
  dsimp only
  have hcond : (['t', 'x', 't'] : List Char) ≠ [] ∧ s.data.reverse ≠ [] := by
    refine ⟨by simp, ?_⟩
    simpa using hsne
  rw [if_pos hcond, List.reverse_reverse]
  rfl

/-- A recognized image extension is in particular nonempty. -/
theorem suffix_ne_of_ext (n : String) (h : lowerStr (pySuffix n) ∈ EXTS) :
    pySuffix n ≠ "" := by
  intro hc
  rw [hc] at h
  simp [lowerStr, EXTS] at h

/-- `Path.exists()` on `dir / name` in terms of the directory listing. -/
theorem pathExistsIn_iff (fs : FS) (d name : String) :
    pathExistsIn fs d name = true ↔ ∃ e ∈ dirListing fs d, e.name = name := by
  cases h : fs.dirs.lookup d <;>
    simp [pathExistsIn, h, dirListing, List.any_eq_true]

/-- The img_etiquetas.py inner loop emits exactly one event per entry passing
the discovery filter, and that event depends on that entry alone. -/
theorem runEntriesImg_eq_map (u : UploadO) (fs : FS) (s i l : String) :
    ∀ es : List Entry,
      runEntriesImg u fs s i l es = (es.filter isAssetImg).map (evFor u fs s i l) := by
  intro es
  induction es with
  | nil => rfl
  | cons e rest ih =>
    rw [runEntriesImg]
    by_cases he : isAssetImg e
    · simp only [List.filter_cons, he, if_true, List.map_cons, ← ih, evFor]
      cases hu : u (imgKwargs fs s i l e.name) <;> simp [hu]
    · simp only [List.filter_cons, he, if_false, Bool.false_eq_true, ← ih]

/-- The subir.py inner loop emits exactly one event per entry matching the
glob, and that event depends on that entry alone. -/
theorem runEntriesSubir_eq_map (u : UploadO) (s f : String) :
    ∀ es : List Entry,
      runEntriesSubir u s f es =
        (es.filter (fun e => globJpg e.name)).map (sevFor u s f) := by
  intro es
  induction es with
  | nil => rfl
  | cons e rest ih =>
    rw [runEntriesSubir]
    by_cases he : globJpg e.name
    · simp only [List.filter_cons, he, if_true, List.map_cons, ← ih, sevFor]
      cases hu : u (subirKwargs f e.name s) <;> simp [hu]
    · simp only [List.filter_cons, he, if_false, Bool.false_eq_true, ← ih]

/-- `callsImg` distributes over concatenation of event streams. -/
theorem callsImg_append : ∀ (a b : List Ev), callsImg (a ++ b) = callsImg a ++ callsImg b := by
  intro a b
  induction a with
  | nil => rfl
  | cons e rest ih => cases e <;> simp [callsImg, ih]

/-- `callsSubir` distributes over concatenation of event streams. -/
theorem callsSubir_append : ∀ (a b : List SEv),
    callsSubir (a ++ b) = callsSubir a ++ callsSubir b := by
  intro a b
  induction a with
  | nil => rfl
  | cons e rest ih => cases e <;> simp [callsSubir, ih]

/-- The calls made while processing a list of discovered assets are exactly
their kwargs, in order. -/
theorem callsImg_map_evFor (u : UploadO) (fs : FS) (s i l : String) :
    ∀ es : List Entry,
      callsImg (es.map (evFor u fs s i l)) =
        es.map (fun e => imgKwargs fs s i l e.name) := by
  intro es
  induction es with
  | nil => rfl
  | cons e rest ih =>
    cases hu : u (imgKwargs fs s i l e.name) <;>
      simp [evFor, hu, callsImg, ih]

/-- The calls subir.py makes for a list of discovered entries. -/
theorem callsSubir_map_sevFor (u : UploadO) (s f : String) :
    ∀ es : List Entry,
      callsSubir (es.map (sevFor u s f)) =
        es.map (fun e => subirKwargs f e.name s) := by
  intro es
  induction es with
  | nil => rfl
  | cons e rest ih =>
    cases hu : u (subirKwargs f e.name s) <;>
      simp [sevFor, hu, callsSubir, ih]

/-- The kwargs img_etiquetas.py builds always have exactly the allowed keys
and never any batch/tag/sequence key. -/
theorem imgKwargs_keys (fs : FS) (s i l n : String) :
    (allowedImgKeys (imgKwargs fs s i l n) && noBatchMeta (imgKwargs fs s i l n)) = true := by
  by_cases h : pathExistsIn fs l (pyStem n ++ ".txt") <;>
    simp [imgKwargs, h, allowedImgKeys, noBatchMeta, keysOf]

/-- The kwargs subir.py builds have exactly the three fixed keys. -/
theorem subirKwargs_keys (f n s : String) :
    ((keysOf (subirKwargs f n s) == ["image_path", "split", "num_retry_uploads"]) &&
      noBatchMeta (subirKwargs f n s)) = true := by
  simp [subirKwargs, noBatchMeta, keysOf]

/-- What one img_etiquetas.py split prints, line by line. -/
theorem traceSplitImg (u : UploadO) (fs : FS) (t : String × String × String) :
    (runSplitImg u fs t).map renderEv =
      (match fs.dirs.lookup t.2.1 with
       | none => ["⚠️ No existe " ++ t.2.1 ++ " (split " ++ t.1 ++ ")"]
       | some es =>
          ("\n=== Subiendo " ++ t.1 ++ " con anotaciones YOLO (si existen) ===") ::
            (es.filter isAssetImg).map (assetLineImg u fs t.1 t.2.1 t.2.2)) := by
  cases h : fs.dirs.lookup t.2.1 with
  | none => simp [runSplitImg, h, renderEv]
  | some es =>
    simp [runSplitImg, h, renderEv, runEntriesImg_eq_map, assetLineImg]

/-- What one subir.py split prints, line by line. -/
theorem traceSplitSubir (u : UploadO) (fs : FS) (t : String × String) :
    (runSplitSubir u fs t).map renderSEv =
      (match fs.dirs.lookup t.2 with
       | none => ["⚠️ No existe la carpeta: " ++ t.2]
       | some es =>
          ("\n=== Subiendo imágenes desde " ++ t.2 ++ " al split \x27" ++ t.1 ++ "\x27 ===") ::
            (es.filter (fun e => globJpg e.name)).map (assetLineSubir u t.1 t.2)) := by
  cases h : fs.dirs.lookup t.2 with
  | none => simp [runSplitSubir, h, renderSEv]
  | some es =>
    simp [runSplitSubir, h, renderSEv, runEntriesSubir_eq_map, assetLineSubir]

/-! ## Claim theorems -/

/-- C1, counterexample: with a DIRECTORY named `a.txt` (not a file) in the
train annotation directory, the run's single upload call does include an
annotation path, although no file with matching stem and `.txt` extension
exists there — `label_path.exists()` does not check for a regular file. -/
theorem c1_annotation_dir_counterexample :
    callsImg (runImg uOk fsC1) =
      [[("image_path", Val.vstr "data/train/images/a.jpg"),
        ("split", Val.vstr "train"),
        ("num_retry_uploads", Val.vint 3),
        ("annotation_path", Val.vstr "data/train/labels/a.txt")]]
  ∧ (∀ e ∈ dirListing fsC1 "data/train/labels",
      ¬(e.isFile = true ∧ pyStem e.name = pyStem "a.jpg" ∧ pySuffix e.name = ".txt")) := by
  constructor
  · rfl
  · decide

/-- C1 (amended): for an image with a recognized extension, the upload call
includes an annotation path iff the split's annotation directory contains an
entry — of any kind, since `Path.exists()` does not require a regular file —
whose filename stem equals the image's stem exactly with extension `.txt`;
the attached path is exactly that entry's path, and no partial or prefix stem
match ever attaches an annotation. -/
theorem c1_annotation_iff_exact_stem :
    ∀ (fs : FS) (s i l n : String),
    lowerStr (pySuffix n) ∈ EXTS →
    ((∃ v, ("annotation_path", v) ∈ imgKwargs fs s i l n) ↔
      ∃ e ∈ dirListing fs l, pyStem e.name = pyStem n ∧ pySuffix e.name = ".txt")
  ∧ (∀ v, ("annotation_path", v) ∈ imgKwargs fs s i l n →
      v = Val.vstr (l ++ "/" ++ (pyStem n ++ ".txt"))) := by
  intro fs s i l n hext
  have hsuf : pySuffix n ≠ "" := suffix_ne_of_ext n hext
  have hstem : pyStem n ≠ "" := stem_ne_empty n hsuf
  have hsplit : pySplit (pyStem n ++ ".txt") = (pyStem n, ".txt") :=
    pySplit_append_txt (pyStem n) hstem
  constructor
  · constructor
    · rintro ⟨v, hv⟩
      by_cases hpe : pathExistsIn fs l (pyStem n ++ ".txt")
      · obtain ⟨e, he, hname⟩ := (pathExistsIn_iff fs l _).mp hpe
        refine ⟨e, he, ?_, ?_⟩
        · show pyStem e.name = pyStem n
          unfold pyStem
          rw [hname, hsplit]
          rfl
        · show pySuffix e.name = ".txt"
          unfold pySuffix
          rw [hname, hsplit]
      · simp [imgKwargs, hpe] at hv
    · rintro ⟨e, he, hst, hsf⟩
      have hne : pySuffix e.name ≠ "" := by
        rw [hsf]
        intro hc
        simp at hc
      have hname : e.name = pyStem n ++ ".txt" := by
        have hds := stem_append_suffix e.name hne
        rw [hst, hsf] at hds
        exact hds.symm
      have hpe : pathExistsIn fs l (pyStem n ++ ".txt") = true :=
        (pathExistsIn_iff fs l _).mpr ⟨e, he, hname⟩
      refine ⟨Val.vstr (l ++ "/" ++ (pyStem n ++ ".txt")), ?_⟩
      simp [imgKwargs, hpe]
  · intro v hv
    by_cases hpe : pathExistsIn fs l (pyStem n ++ ".txt") <;>
      simp [imgKwargs, hpe] at hv
    exact hv

/-- C1, witness for the amended theorem: with a regular file `a.txt` in the
train annotation directory, the equivalence and the attached-path fact hold
for the image `a.jpg`. -/
theorem c1_annotation_iff_exact_stem_witness :
    ((∃ v, ("annotation_path", v) ∈
        imgKwargs fsC1w "train" "data/train/images" "data/train/labels" "a.jpg") ↔
      ∃ e ∈ dirListing fsC1w "data/train/labels",
        pyStem e.name = pyStem "a.jpg" ∧ pySuffix e.name = ".txt")
  ∧ (∀ v, ("annotation_path", v) ∈
        imgKwargs fsC1w "train" "data/train/images" "data/train/labels" "a.jpg" →
      v = Val.vstr ("data/train/labels" ++ "/" ++ (pyStem "a.jpg" ++ ".txt"))) :=
  c1_annotation_iff_exact_stem fsC1w "train" "data/train/images" "data/train/labels"
    "a.jpg" (by decide)

/-- C3: when both the primary credential variable and its lowercase fallback
are unset, each script fails at its credential check with its configuration
error (exit code 2 for the CLI) — and the result is the same for every
filesystem, remote behavior and upload oracle, i.e. before any dataset
directory is touched and before any network call is made. -/
theorem c3_missing_credential_fails_first :
    ∀ env : List (String × String),
    env.lookup "ROBOFLOW_API_KEY" = none → env.lookup "roboflow_api_key" = none →
    (∀ (r : Remote) (fs : FS) (u : UploadO),
        imgEtiquetasMain env r fs u =
          ScriptResult.configError "No se encontró ROBOFLOW_API_KEY en el .env")
  ∧ (∀ (r : Remote) (fs : FS) (u : UploadO),
        subirMain env r fs u =
          ScriptResult.configError
            "No se encontró la API Key. Define ROBOFLOW_API_KEY en tu archivo .env")
  ∧ (∀ (a : Args) (res : String → String) (pe pif : String → Bool) (i wk pk : Bool)
        (up : List (String × Val) → Except String PyVal),
        subir2Exit ⟨env, a, res, pe, pif, i, wk, pk, up⟩ = 2) := by
  intro env h1 h2
  refine ⟨?_, ?_, ?_⟩
  · intro r fs u
    simp [imgEtiquetasMain, h1, h2, pyOr, truthy]
  · intro r fs u
    simp [subirMain, h1, h2, pyOr, truthy]
  · intro a res pe pif i wk pk up
    simp [subir2Exit, w2api, h1, h2, pyOr, truthy]

/-- C3, witness: concrete empty environment. -/
theorem c3_missing_credential_fails_first_witness :
    imgEtiquetasMain [] ⟨true, true, true⟩ fsEmpty uOk =
      ScriptResult.configError "No se encontró ROBOFLOW_API_KEY en el .env"
  ∧ subirMain [] ⟨true, true, true⟩ fsEmpty uOk =
      ScriptResult.configError
        "No se encontró la API Key. Define ROBOFLOW_API_KEY en tu archivo .env"
  ∧ subir2Exit ⟨[], argsCex, fun s => s, fun _ => true, fun _ => true, true, true, true,
      fun _ => Except.ok PyVal.pnone⟩ = 2 := by
  have h := c3_missing_credential_fails_first [] rfl rfl
  exact ⟨h.1 ⟨true, true, true⟩ fsEmpty uOk, h.2.1 ⟨true, true, true⟩ fsEmpty uOk,
    h.2.2 argsCex (fun s => s) (fun _ => true) (fun _ => true) true true true
      (fun _ => Except.ok PyVal.pnone)⟩

/-- C4: in both batch scripts, a split whose image directory does not exist
contributes zero per-asset outcomes, and the run's outcomes are exactly the
outcomes of the remaining splits — the run does not abort. -/
theorem c4_missing_split_skipped :
    (∀ (u : UploadO) (fs : FS) (s i l : String), (s, i, l) ∈ SPLITS →
      fs.dirs.lookup i = none →
      (runSplitImg u fs (s, i, l)).filter (fun e => isOkEv e || isErrEv e) = [] ∧
      (runImg u fs).filter (fun e => isOkEv e || isErrEv e) =
        ((SPLITS.filter (fun t => t.2.1 != i)).map
          (fun t => (runSplitImg u fs t).filter (fun e => isOkEv e || isErrEv e))).flatten)
  ∧ (∀ (u : UploadO) (fs : FS) (s f : String), (s, f) ∈ subirSplits →
      fs.dirs.lookup f = none →
      (runSplitSubir u fs (s, f)).filter (fun e => isSOkEv e || isSErrEv e) = [] ∧
      (runSubir u fs).filter (fun e => isSOkEv e || isSErrEv e) =
        ((subirSplits.filter (fun t => t.2 != f)).map
          (fun t => (runSplitSubir u fs t).filter (fun e => isSOkEv e || isSErrEv e))).flatten) := by
  constructor
  · intro u fs s i l hmem hlook
    simp only [SPLITS, List.mem_cons, List.not_mem_nil, or_false, Prod.mk.injEq] at hmem
    rcases hmem with ⟨hs, hi, hl⟩ | ⟨hs, hi, hl⟩ | ⟨hs, hi, hl⟩ <;> subst hs <;> subst hi <;> subst hl <;>
      refine ⟨by simp [runSplitImg, hlook, isOkEv, isErrEv], ?_⟩ <;>
      simp [runImg, SPLITS, List.filter_append, runSplitImg, hlook, isOkEv, isErrEv]
  · intro u fs s f hmem hlook
    simp only [subirSplits, List.mem_cons, List.not_mem_nil, or_false, Prod.mk.injEq] at hmem
    rcases hmem with ⟨hs, hf⟩ | ⟨hs, hf⟩ | ⟨hs, hf⟩ <;> subst hs <;> subst hf <;>
      refine ⟨by simp [runSplitSubir, hlook, isSOkEv, isSErrEv], ?_⟩ <;>
      simp [runSubir, subirSplits, List.filter_append, runSplitSubir, hlook, isSOkEv, isSErrEv]

/-- C4, witness: the train image directory missing in a concrete filesystem,
for both scripts. -/
theorem c4_missing_split_skipped_witness :
    ((runSplitImg uOk fsC4 ("train", "data/train/images", "data/train/labels")).filter
        (fun e => isOkEv e || isErrEv e) = [] ∧
      (runImg uOk fsC4).filter (fun e => isOkEv e || isErrEv e) =
        ((SPLITS.filter (fun t => t.2.1 != "data/train/images")).map
          (fun t => (runSplitImg uOk fsC4 t).filter (fun e => isOkEv e || isErrEv e))).flatten)
  ∧ ((runSplitSubir uOk fsC4 ("train", "data/train/images")).filter
        (fun e => isSOkEv e || isSErrEv e) = [] ∧
      (runSubir uOk fsC4).filter (fun e => isSOkEv e || isSErrEv e) =
        ((subirSplits.filter (fun t => t.2 != "data/train/images")).map
          (fun t => (runSplitSubir uOk fsC4 t).filter (fun e => isSOkEv e || isSErrEv e))).flatten) := by
  have h := c4_missing_split_skipped
  exact ⟨h.1 uOk fsC4 "train" "data/train/images" "data/train/labels" (by decide) rfl,
    h.2 uOk fsC4 "train" "data/train/images" (by decide) rfl⟩

/-- C5: in both batch scripts, when the upload of a discovered asset raises,
the loop records that asset's failure outcome and processes the remaining
entries exactly as it would have anyway — a failure never aborts the split. -/
theorem c5_failure_never_aborts :
    (∀ (u : UploadO) (fs : FS) (s i l msg : String) (e : Entry) (rest : List Entry),
      isAssetImg e = true → u (imgKwargs fs s i l e.name) = some msg →
      runEntriesImg u fs s i l (e :: rest) =
        Ev.errEv (imgKwargs fs s i l e.name) e.name msg :: runEntriesImg u fs s i l rest)
  ∧ (∀ (u : UploadO) (s f msg : String) (e : Entry) (rest : List Entry),
      globJpg e.name = true → u (subirKwargs f e.name s) = some msg →
      runEntriesSubir u s f (e :: rest) =
        SEv.serr (subirKwargs f e.name s) e.name msg :: runEntriesSubir u s f rest) := by
  constructor
  · intro u fs s i l msg e rest he hu
    rw [runEntriesImg]
    simp [he, hu]
  · intro u s f msg e rest he hu
    rw [runEntriesSubir]
    simp [he, hu]

/-- C5, witness: a concrete two-entry directory with an always-raising
upload oracle, for both scripts. -/
theorem c5_failure_never_aborts_witness :
    runEntriesImg uBoom fsEmpty "train" "di" "dl"
        (⟨"a.jpg", true⟩ :: [⟨"b.jpg", true⟩]) =
      Ev.errEv (imgKwargs fsEmpty "train" "di" "dl" "a.jpg") "a.jpg" "boom" ::
        runEntriesImg uBoom fsEmpty "train" "di" "dl" [⟨"b.jpg", true⟩]
  ∧ runEntriesSubir uBoom "train" "di" (⟨"a.jpg", true⟩ :: [⟨"b.jpg", true⟩]) =
      SEv.serr (subirKwargs "di" "a.jpg" "train") "a.jpg" "boom" ::
        runEntriesSubir uBoom "train" "di" [⟨"b.jpg", true⟩] := by
  have h := c5_failure_never_aborts
  exact ⟨h.1 uBoom fsEmpty "train" "di" "dl" "boom" ⟨"a.jpg", true⟩ [⟨"b.jpg", true⟩]
      (by decide) rfl,
    h.2 uBoom "train" "di" "boom" ⟨"a.jpg", true⟩ [⟨"b.jpg", true⟩] (by decide) rfl⟩

/-- The retry loop fails with `made + fuel` total attempts when every allowed
attempt fails. -/
theorem retryGo_fail (ok : Nat → Bool) :
    ∀ (fuel made : Nat), (∀ k, made < k → k ≤ made + fuel → ok k = false) →
      retryGo ok made fuel = RetryOutcome.failed (made + fuel) := by
  intro fuel
  induction fuel with
  | zero => intro made h; simp [retryGo]
  | succ f ih =>
    intro made h
    have h1 : ok (made + 1) = false := h (made + 1) (by omega) (by omega)
    rw [retryGo]
    simp only [h1, Bool.false_eq_true, if_false]
    have := ih (made + 1) (fun k hk1 hk2 => h k (by omega) (by omega))
    rw [this]
    have harith : made + 1 + f = made + (f + 1) := by omega
    rw [harith]

/-- The retry loop stops at the first successful attempt, reporting its
1-based number. -/
theorem retryGo_succ (ok : Nat → Bool) :
    ∀ (fuel made k : Nat), made < k → k ≤ made + fuel → ok k = true →
      (∀ j, made < j → j < k → ok j = false) →
      retryGo ok made fuel = RetryOutcome.uploaded k := by
  intro fuel
  induction fuel with
  | zero => intro made k h1 h2 _ _; omega
  | succ f ih =>
    intro made k h1 h2 hk hb
    by_cases he : k = made + 1
    · rw [retryGo]
      rw [← he, hk]
      simp [he]
    · have hf : ok (made + 1) = false := hb (made + 1) (by omega) (by omega)
      rw [retryGo]
      simp only [hf, Bool.false_eq_true, if_false]
      exact ih (made + 1) k (by omega) (by omega) hk (fun j hj1 hj2 => hb j (by omega) hj2)

/-- C6: RetryingUploader with retry bound `R ≥ 0` — when every attempt fails
it makes exactly `R+1` attempts and yields a failed outcome whose attempt
count is `R+1`; when attempt `k ≤ R+1` is the first to succeed it makes
exactly `k` attempts and yields an uploaded outcome.  (The loop is modelled
from the spec: the scripts delegate it to the external client through
`num_retry_uploads`.) -/
theorem c6_retry_attempt_counts :
    (∀ (ok : Nat → Bool) (R : Nat), (∀ k, ok k = false) →
      retryUpload ok R = RetryOutcome.failed (R + 1))
  ∧ (∀ (ok : Nat → Bool) (R k : Nat), 1 ≤ k → k ≤ R + 1 → ok k = true →
      (∀ j, 1 ≤ j → j < k → ok j = false) →
      retryUpload ok R = RetryOutcome.uploaded k) := by
  constructor
  · intro ok R h
    have := retryGo_fail ok (R + 1) 0 (fun k _ _ => h k)
    simpa [retryUpload] using this
  · intro ok R k h1 h2 hk hb
    have := retryGo_succ ok (R + 1) 0 k (by omega) (by omega) hk
      (fun j hj1 hj2 => hb j (by omega) hj2)
    simpa [retryUpload] using this

/-- C6, witness: an always-failing attempt predicate with bound 2 makes 3
attempts and fails; a predicate whose first success is attempt 2, with bound
3, uploads at attempt 2. -/
theorem c6_retry_attempt_counts_witness :
    retryUpload (fun _ => false) 2 = RetryOutcome.failed 3
  ∧ retryUpload okAt2 3 = RetryOutcome.uploaded 2 := by
  have h := c6_retry_attempt_counts
  refine ⟨h.1 (fun _ => false) 2 (fun _ => rfl), ?_⟩
  refine h.2 okAt2 3 2 (by omega) (by omega) rfl ?_
  intro j hj1 hj2
  have hj : j = 1 := by omega
  subst hj
  rfl

/-- C7, counterexample: a world where every setup step succeeds and the
upload call itself returns normally — with a response dict whose `image`
value is a string — still exits with code 7, because the link extraction
inside the same `try` raises; so exit 7 does not mean the upload call failed,
and a successful upload does not guarantee exit 0. -/
theorem c7_exit7_on_successful_upload :
    subir2Exit w2cex = 7
  ∧ w2cex.upload (uploadKwargs2 w2cex.args (w2img w2cex)) =
      Except.ok (PyVal.pdict [("image", PyVal.pstr "oops")]) := by
  exact ⟨rfl, rfl⟩

/-- C7 (amended): the CLI exits 2 when the credential, workspace or project
is falsy, 3 when the resolved image path does not exist or is not a file,
4/5/6 when client init / workspace / project setup raises, 7 when the upload
raises or when extracting the link from a successful response raises, and 0
when the upload and the link extraction both return normally. -/
theorem c7_exit_codes_amended : ∀ w : W2,
    (truthy (w2api w) = false → subir2Exit w = 2)
  ∧ (truthy (w2api w) = true → truthy w.args.workspace = false → subir2Exit w = 2)
  ∧ (truthy (w2api w) = true → truthy w.args.workspace = true →
      truthy w.args.project = false → subir2Exit w = 2)
  ∧ (truthy (w2api w) = true → truthy w.args.workspace = true →
      truthy w.args.project = true →
      (w.pathExists (w2img w) = false ∨ w.pathIsFile (w2img w) = false) →
      subir2Exit w = 3)
  ∧ (truthy (w2api w) = true → truthy w.args.workspace = true →
      truthy w.args.project = true → w.pathExists (w2img w) = true →
      w.pathIsFile (w2img w) = true → w.initOk = false → subir2Exit w = 4)
  ∧ (truthy (w2api w) = true → truthy w.args.workspace = true →
      truthy w.args.project = true → w.pathExists (w2img w) = true →
      w.pathIsFile (w2img w) = true → w.initOk = true → w.workspaceOk = false →
      subir2Exit w = 5)
  ∧ (truthy (w2api w) = true → truthy w.args.workspace = true →
      truthy w.args.project = true → w.pathExists (w2img w) = true →
      w.pathIsFile (w2img w) = true → w.initOk = true → w.workspaceOk = true →
      w.projectOk = false → subir2Exit w = 6)
  ∧ (∀ m, truthy (w2api w) = true → truthy w.args.workspace = true →
      truthy w.args.project = true → w.pathExists (w2img w) = true →
      w.pathIsFile (w2img w) = true → w.initOk = true → w.workspaceOk = true →
      w.projectOk = true →
      w.upload (uploadKwargs2 w.args (w2img w)) = Except.error m → subir2Exit w = 7)
  ∧ (∀ resp m, truthy (w2api w) = true → truthy w.args.workspace = true →
      truthy w.args.project = true → w.pathExists (w2img w) = true →
      w.pathIsFile (w2img w) = true → w.initOk = true → w.workspaceOk = true →
      w.projectOk = true →
      w.upload (uploadKwargs2 w.args (w2img w)) = Except.ok resp →
      linkOf resp = Except.error m → subir2Exit w = 7)
  ∧ (∀ resp lv, truthy (w2api w) = true → truthy w.args.workspace = true →
      truthy w.args.project = true → w.pathExists (w2img w) = true →
      w.pathIsFile (w2img w) = true → w.initOk = true → w.workspaceOk = true →
      w.projectOk = true →
      w.upload (uploadKwargs2 w.args (w2img w)) = Except.ok resp →
      linkOf resp = Except.ok lv → subir2Exit w = 0) := by
  intro w
  refine ⟨?_, ?_, ?_, ?_, ?_, ?_, ?_, ?_, ?_, ?_⟩
  · intro h1
    simp [subir2Exit, h1]
  · intro h1 h2
    simp [subir2Exit, h1, h2]
  · intro h1 h2 h3
    simp [subir2Exit, h1, h2, h3]
  · intro h1 h2 h3 h4
    rcases h4 with h4 | h4 <;> simp [subir2Exit, h1, h2, h3, h4]
  · intro h1 h2 h3 h4 h5 h6
    simp [subir2Exit, h1, h2, h3, h4, h5, h6]
  · intro h1 h2 h3 h4 h5 h6 h7
    simp [subir2Exit, h1, h2, h3, h4, h5, h6, h7]
  · intro h1 h2 h3 h4 h5 h6 h7 h8
    simp [subir2Exit, h1, h2, h3, h4, h5, h6, h7, h8]
  · intro m h1 h2 h3 h4 h5 h6 h7 h8 h9
    simp [subir2Exit, h1, h2, h3, h4, h5, h6, h7, h8, h9]
  · intro resp m h1 h2 h3 h4 h5 h6 h7 h8 h9 h10
    simp [subir2Exit, h1, h2, h3, h4, h5, h6, h7, h8, h9, h10]
  · intro resp lv h1 h2 h3 h4 h5 h6 h7 h8 h9 h10
    simp [subir2Exit, h1, h2, h3, h4, h5, h6, h7, h8, h9, h10]

/-- C7, witness for the amended theorem: a fully-configured world whose
upload returns a response the link extraction handles exits 0. -/
theorem c7_exit_codes_amended_witness :
    subir2Exit { w2cex with upload := fun _ => Except.ok PyVal.pnone } = 0 := by
  have h := c7_exit_codes_amended { w2cex with upload := fun _ => Except.ok PyVal.pnone }
  exact h.2.2.2.2.2.2.2.2.2 PyVal.pnone PyVal.pnone rfl rfl rfl rfl rfl rfl rfl rfl rfl rfl

/-- C8, counterexample: `x.png` is a regular file with a recognized image
extension sitting in subir.py's existing train image directory, yet
subir.py's run makes no upload call and produces no outcome for it — its
discovery is `glob("*.jpg")`, not the case-insensitive extension set. -/
theorem c8_subir_skips_recognized_extension :
    isAssetImg ⟨"x.png", true⟩ = true
  ∧ fsC8.dirs.lookup "data/train/images" = some [⟨"x.png", true⟩]
  ∧ (runSubir uOk fsC8).filter (fun e => isSOkEv e || isSErrEv e) = []
  ∧ callsSubir (runSubir uOk fsC8) = [] := by
  refine ⟨by decide, rfl, rfl, rfl⟩

/-- C8 (amended): img_etiquetas.py discovers exactly one asset per listed
entry that is a regular file whose extension, lowercased, is in
jpg/jpeg/png/bmp/webp, silently skipping the rest (`isAssetImg`); subir.py
instead discovers exactly the entries whose name ends in `.jpg` —
case-sensitive, dot-initial names included, ignoring the other recognized
extensions and not checking regular-file-ness. -/
theorem c8_discovery_amended :
    ∀ (u : UploadO) (fs : FS) (s i l f : String) (es : List Entry),
    runEntriesImg u fs s i l es = (es.filter isAssetImg).map (evFor u fs s i l)
  ∧ runEntriesSubir u s f es =
      (es.filter (fun e => globJpg e.name)).map (sevFor u s f) := by
  intro u fs s i l f es
  exact ⟨runEntriesImg_eq_map u fs s i l es, runEntriesSubir_eq_map u s f es⟩

/-- C9, counterexample: a concrete completed run of img_etiquetas.py whose
output ends with the last asset's outcome line — nothing, in particular no
aggregate summary, is printed after the splits complete. -/
theorem c9_no_final_summary :
    traceImg uOk fsC9 =
      ["⚠️ No existe data/train/images (split train)",
       "⚠️ No existe data/val/images (split valid)",
       "\n=== Subiendo test con anotaciones YOLO (si existen) ===",
       "✅ a.jpg  (solo imagen)"]
  ∧ (traceImg uOk fsC9).getLast? = some "✅ a.jpg  (solo imagen)" := by
  exact ⟨rfl, rfl⟩

/-- C9 (amended): in both batch scripts every discovered asset's outcome is
printed individually, in processing order, as one line per asset; the whole
output consists only of missing-directory warnings, split banners and those
per-asset lines — no final aggregate summary line is ever printed. -/
theorem c9_reporting_amended :
    ∀ (u : UploadO) (fs : FS),
    traceImg u fs = (SPLITS.map (fun t =>
        match fs.dirs.lookup t.2.1 with
        | none => ["⚠️ No existe " ++ t.2.1 ++ " (split " ++ t.1 ++ ")"]
        | some es =>
            ("\n=== Subiendo " ++ t.1 ++ " con anotaciones YOLO (si existen) ===") ::
              (es.filter isAssetImg).map (assetLineImg u fs t.1 t.2.1 t.2.2))).flatten
  ∧ traceSubir u fs = (subirSplits.map (fun t =>
        match fs.dirs.lookup t.2 with
        | none => ["⚠️ No existe la carpeta: " ++ t.2]
        | some es =>
            ("\n=== Subiendo imágenes desde " ++ t.2 ++ " al split \x27" ++ t.1 ++ "\x27 ===") ::
              (es.filter (fun e => globJpg e.name)).map (assetLineSubir u t.1 t.2))).flatten := by
  intro u fs
  constructor
  · show (runImg u fs).map renderEv = _
    rw [runImg, List.map_flatten, List.map_map]
    simp only [SPLITS, List.map_cons, List.map_nil, Function.comp]
    rw [traceSplitImg, traceSplitImg, traceSplitImg]
  · show (runSubir u fs).map renderSEv = _
    rw [runSubir, List.map_flatten, List.map_map]
    simp only [subirSplits, List.map_cons, List.map_nil, Function.comp]
    rw [traceSplitSubir, traceSplitSubir, traceSplitSubir]

/-- All calls of one img_etiquetas.py split carry only the allowed keys. -/
theorem goodCallsSplitImg (u : UploadO) (fs : FS) (t : String × String × String) :
    (callsImg (runSplitImg u fs t)).all
      (fun kw => allowedImgKeys kw && noBatchMeta kw) = true := by
  cases h : fs.dirs.lookup t.2.1 with
  | none => simp [runSplitImg, h, callsImg]
  | some es =>
    simp only [runSplitImg, h, callsImg, runEntriesImg_eq_map, callsImg_map_evFor]
    rw [List.all_eq_true]
    intro kw hkw
    rw [List.mem_map] at hkw
    obtain ⟨e, _, hke⟩ := hkw
    rw [← hke]
    exact imgKwargs_keys fs t.1 t.2.1 t.2.2 e.name

/-- All calls of one subir.py split carry exactly the three fixed keys. -/
theorem goodCallsSplitSubir (u : UploadO) (fs : FS) (t : String × String) :
    (callsSubir (runSplitSubir u fs t)).all
      (fun kw => (keysOf kw == ["image_path", "split", "num_retry_uploads"]) &&
        noBatchMeta kw) = true := by
  cases h : fs.dirs.lookup t.2 with
  | none => simp [runSplitSubir, h, callsSubir]
  | some es =>
    simp only [runSplitSubir, h, callsSubir, runEntriesSubir_eq_map, callsSubir_map_sevFor]
    rw [List.all_eq_true]
    intro kw hkw
    rw [List.mem_map] at hkw
    obtain ⟨e, _, hke⟩ := hkw
    rw [← hke]
    exact subirKwargs_keys t.2 e.name t.1

/-- C10: in batch mode every upload call sends exactly `image_path`, `split`
and `num_retry_uploads` — plus, in img_etiquetas.py only, `annotation_path`
when a matching label was found — and never a batch name, tags, sequence
number or sequence size, for every oracle and filesystem. -/
theorem c10_no_extra_upload_metadata :
    ∀ (u : UploadO) (fs : FS),
    ((callsImg (runImg u fs)).all (fun kw => allowedImgKeys kw && noBatchMeta kw) = true)
  ∧ ((callsSubir (runSubir u fs)).all
      (fun kw => (keysOf kw == ["image_path", "split", "num_retry_uploads"]) &&
        noBatchMeta kw) = true) := by
  intro u fs
  constructor
  · have h1 := goodCallsSplitImg u fs ("train", "data/train/images", "data/train/labels")
    have h2 := goodCallsSplitImg u fs ("valid", "data/val/images", "data/val/labels")
    have h3 := goodCallsSplitImg u fs ("test", "data/test/images", "data/test/labels")
    simp only [runImg, SPLITS, List.map_cons, List.map_nil, List.flatten_cons,
      List.flatten_nil, List.append_nil, callsImg_append, List.all_append]
    rw [h1, h2, h3]
    rfl
  · have h1 := goodCallsSplitSubir u fs ("train", "data/train/images")
    have h2 := goodCallsSplitSubir u fs ("valid", "data/val/images")
    have h3 := goodCallsSplitSubir u fs ("test", "data/test/images")
    simp only [runSubir, subirSplits, List.map_cons, List.map_nil, List.flatten_cons,
      List.flatten_nil, List.append_nil, callsSubir_append, List.all_append]
    rw [h1, h2, h3]
    rfl
